import Mathlib

/-
Verification of the oyako-todo points ledger and reward-redemption workflow.

The client code under src/ performs its state changes as sequences of separate
Supabase calls.  We embed the relevant tables as lists of rows, each screen
operation as a function on that database state, and the possibility that an
individual backend call errors as an explicit outcome flag (the TypeScript
code checks the error of each call and early-returns, leaving the mutations of
the preceding calls committed).

Sources embedded here:
  - src/app/child/page.tsx               toggleDone
  - src/app/parent/reward-requests/page.tsx  approve
  - src/app/parent/redemptions/page.tsx  fetchRows, approve/reject (RPC callers)
  - src/unnamed/part_002                 exchangeReward
The stored procedures toggle_task_done, approve_reward_redemption and
reject_reward_redemption live in the database, not in the repository; they are
modelled from the spec where marked.
-/

namespace Oyako

/-- Transaction kind as written to the `type` column of point_transactions:
`task_done` / `task_undo` from toggleDone, `spend` from redemption approval. -/
inductive TxType where
  | task_done
  | task_undo
  | spend
deriving DecidableEq, Repr

/-- Status values of the reward_redemptions `status` column. -/
inductive RedemptionStatus where
  | pending
  | approved
  | rejected
deriving DecidableEq, Repr

/-- Row of the `children` table: id plus the cached point balance
(presentation-only fields such as the name are omitted). -/
structure Child where
  id : Nat
  points : Int
deriving DecidableEq, Repr

/-- Row of the `tasks` table (title, category and owning parent are
presentation-only and omitted). -/
structure Task where
  id : Nat
  child_id : Nat
  point : Int
  is_done : Bool
deriving DecidableEq, Repr

/-- Row of the `point_transactions` ledger table: target child, optional
originating redemption, transaction kind and the signed point delta stored in
the `points` column (the free-text note is omitted). -/
structure PointTransaction where
  child_id : Nat
  reward_redemption_id : Option Nat
  type : TxType
  points : Int
deriving DecidableEq, Repr

/-- Row of the `rewards` table (title, description, image are omitted). -/
structure Reward where
  id : Nat
  required_points : Int
deriving DecidableEq, Repr

/-- Row of the `reward_redemptions` table. -/
structure Redemption where
  id : Nat
  child_id : Nat
  reward_id : Nat
  status : RedemptionStatus
  requested_at : Nat
deriving DecidableEq, Repr

/-- The database state the embedded operations read and write. -/
structure DB where
  children : List Child
  tasks : List Task
  point_transactions : List PointTransaction
  reward_redemptions : List Redemption
  rewards : List Reward
deriving DecidableEq, Repr

/-- UPDATE tasks SET is_done = done WHERE id = taskId. -/
def updateTaskDone (db : DB) (taskId : Nat) (done : Bool) : DB :=
  { db with tasks :=
      db.tasks.map fun t => if t.id = taskId then { t with is_done := done } else t }

/-- SELECT points FROM children WHERE id = childId (.single(): none models the
error branch when no row is found). -/
def selectChildPoints (db : DB) (childId : Nat) : Option Int :=
  (db.children.find? fun c => c.id = childId).map Child.points

/-- UPDATE children SET points = pts WHERE id = childId. -/
def updateChildPoints (db : DB) (childId : Nat) (pts : Int) : DB :=
  { db with children :=
      db.children.map fun c => if c.id = childId then { c with points := pts } else c }

/-- INSERT INTO point_transactions. -/
def insertTransaction (db : DB) (tx : PointTransaction) : DB :=
  { db with point_transactions := db.point_transactions ++ [tx] }

/-- UPDATE reward_redemptions SET status = st WHERE id = redemptionId. -/
def setRedemptionStatus (db : DB) (redemptionId : Nat) (st : RedemptionStatus) : DB :=
  { db with reward_redemptions :=
      db.reward_redemptions.map fun r =>
        if r.id = redemptionId then { r with status := st } else r }

/-- Cached balance of a child as stored in the children table (the same read
the screens perform; none when the child row is missing). -/
def balanceOf (db : DB) (cid : Nat) : Option Int :=
  selectChildPoints db cid

/-- Sum of the signed deltas of all ledger entries referencing a child. -/
def ledgerSum (db : DB) (cid : Nat) : Int :=
  ((db.point_transactions.filter fun t => t.child_id = cid).map
    PointTransaction.points).sum

/-- Number of spend ledger entries referencing a given redemption id. -/
def spendCount (db : DB) (redemptionId : Nat) : Nat :=
  (db.point_transactions.filter fun t =>
    t.type = TxType.spend && t.reward_redemption_id = some redemptionId).length

/-- Success/failure of each backend call made by toggleDone, in call order:
the toggle_task_done RPC, the points read, the points update, and the history
insert.  The TypeScript checks each error and early-returns. -/
structure StepOutcomes where
  taskUpdateOk : Bool
  pointReadOk : Bool
  pointWriteOk : Bool
  txInsertOk : Bool
deriving DecidableEq, Repr

/-- All four backend calls succeed. -/
def allOk : StepOutcomes := ⟨true, true, true, true⟩

/-- Outcome of a toggleDone call as observed by the caller. -/
inductive ToggleResult where
  | guarded
  | failed
  | success (newDone : Bool) (delta : Int)
deriving DecidableEq, Repr

/-- Embedding of toggleDone from src/app/child/page.tsx (lines 190-281).
Guards: no child selected, or the task belongs to a different child, abort
with a notification and no mutation.  Then in order:
step 1 calls the toggle_task_done RPC (modelled from the spec as
writeTaskDone: the stored procedure is not in the repository; on error
nothing else runs); step 2 reads the current points via .single(); step 3
writes `max 0 (points + delta)` back; step 4 inserts one point_transactions
row carrying the unclamped delta.  Each failing step leaves the mutations of
the earlier steps in place, exactly as the early returns in the source do. -/
def toggleDone (db : DB) (task : Task) (selectedChildId : Option Nat)
    (o : StepOutcomes) : DB × ToggleResult :=
  match selectedChildId with
  | none => (db, ToggleResult.guarded)
  | some cid =>
    if task.child_id ≠ cid then (db, ToggleResult.guarded)
    else
      let nextDone := !task.is_done
      let delta := if nextDone then task.point else -task.point
      if !o.taskUpdateOk then (db, ToggleResult.failed)
      else
        let db1 := updateTaskDone db task.id nextDone
        match (if o.pointReadOk then selectChildPoints db1 cid else none) with
        | none => (db1, ToggleResult.failed)
        | some pts =>
          let newPoints := max 0 (pts + delta)
          if !o.pointWriteOk then (db1, ToggleResult.failed)
          else
            let db2 := updateChildPoints db1 cid newPoints
            if !o.txInsertOk then (db2, ToggleResult.failed)
            else
              let db3 := insertTransaction db2
                { child_id := cid
                  reward_redemption_id := none
                  type := if nextDone then TxType.task_done else TxType.task_undo
                  points := delta }
              (db3, ToggleResult.success nextDone delta)

/-- Joined row handled by the reward-requests page: a redemption together with
the required_points of its reward (the `*, rewards(*)` select). -/
structure RedemptionWithReward where
  id : Nat
  child_id : Nat
  required_points : Int
deriving DecidableEq, Repr

/-- Embedding of approve from src/app/parent/reward-requests/page.tsx
(lines 49-71).  Step 1 sets status approved (the result is not even checked in
the source); step 2 inserts a spend transaction with the negated cost.  There
is no status check, no balance read, no balance update, and no failure path. -/
def approveRewardRequest (db : DB) (r : RedemptionWithReward) : DB :=
  let db1 := setRedemptionStatus db r.id RedemptionStatus.approved
  insertTransaction db1
    { child_id := r.child_id
      reward_redemption_id := some r.id
      type := TxType.spend
      points := -r.required_points }

/-- Embedding of fetchRows from src/app/parent/redemptions/page.tsx
(lines 52-71): SELECT ... FROM reward_redemptions WHERE status = pending
ORDER BY requested_at ASC. -/
def fetchRows (db : DB) : List Redemption :=
  List.insertionSort (fun a b => a.requested_at ≤ b.requested_at)
    (db.reward_redemptions.filter fun r => r.status = RedemptionStatus.pending)

/-- Lookup in the client-side pointsMap cache; a missing key reads as 0
(`pointsMap[selectedChildId] ?? 0`). -/
def lookupPoints (pm : List (Nat × Int)) (cid : Nat) : Int :=
  match pm.find? fun p => p.1 = cid with
  | some p => p.2
  | none => 0

/-- Embedding of exchangeReward from src/unnamed/part_002 (lines 615-653).
Guards: no child selected, or the cached points are below the required cost,
abort with a notification and no insert.  Otherwise insert one pending
reward_redemptions row (id and requested_at are generated by the database;
they are passed in here).  The Bool reports whether the insert happened. -/
def exchangeReward (db : DB) (pm : List (Nat × Int)) (selectedChildId : Option Nat)
    (reward : Reward) (newId requestedAt : Nat) : DB × Bool :=
  match selectedChildId with
  | none => (db, false)
  | some cid =>
    let current := lookupPoints pm cid
    if current < reward.required_points then (db, false)
    else
      ({ db with reward_redemptions := db.reward_redemptions ++
          [{ id := newId, child_id := cid, reward_id := reward.id
             status := RedemptionStatus.pending, requested_at := requestedAt }] },
       true)

/-- Result of the redemption RPCs as surfaced to the redemptions page. -/
inductive RpcResult where
  | ok
  | notFound
  | invalidState
  | insufficientBalance
deriving DecidableEq, Repr

/-- Modelled from the spec: the approve_reward_redemption stored procedure is
not in the repository (src/app/parent/redemptions/page.tsx only calls it).
Spec section 4.3: load the redemption, NotFound if missing, InvalidState if
status is not pending; load the reward cost; apply the delta through the
ledger, failing InsufficientBalance with no mutation if the balance would go
negative; otherwise atomically write the new balance, append the spend entry
and set status approved. -/
def approve_reward_redemption (db : DB) (redemptionId : Nat) : DB × RpcResult :=
  match db.reward_redemptions.find? fun r => r.id = redemptionId with
  | none => (db, RpcResult.notFound)
  | some r =>
    if r.status ≠ RedemptionStatus.pending then (db, RpcResult.invalidState)
    else
      match db.rewards.find? fun w => w.id = r.reward_id with
      | none => (db, RpcResult.notFound)
      | some w =>
        match selectChildPoints db r.child_id with
        | none => (db, RpcResult.notFound)
        | some pts =>
          let nxt := pts - w.required_points
          if nxt < 0 then (db, RpcResult.insufficientBalance)
          else
            let db1 := updateChildPoints db r.child_id nxt
            let db2 := insertTransaction db1
              { child_id := r.child_id
                reward_redemption_id := some redemptionId
                type := TxType.spend
                points := -w.required_points }
            (setRedemptionStatus db2 redemptionId RedemptionStatus.approved,
             RpcResult.ok)

/-- Modelled from the spec: the reject_reward_redemption stored procedure is
not in the repository.  Spec section 4.3: same preconditions as approve, sets
status rejected, generates no ledger entry. -/
def reject_reward_redemption (db : DB) (redemptionId : Nat) : DB × RpcResult :=
  match db.reward_redemptions.find? fun r => r.id = redemptionId with
  | none => (db, RpcResult.notFound)
  | some r =>
    if r.status ≠ RedemptionStatus.pending then (db, RpcResult.invalidState)
    else (setRedemptionStatus db redemptionId RedemptionStatus.rejected, RpcResult.ok)

/-! Helper lemmas about the backend primitives. -/

/-- Updating a task row leaves the children table, and hence any points read,
unchanged. -/
@[simp]
theorem selectChildPoints_updateTaskDone (db : DB) (tid : Nat) (d : Bool) (cid : Nat) :
    selectChildPoints (updateTaskDone db tid d) cid = selectChildPoints db cid := rfl

/-- Appending a ledger row leaves the children table unchanged. -/
@[simp]
theorem selectChildPoints_insertTransaction (db : DB) (tx : PointTransaction) (cid : Nat) :
    selectChildPoints (insertTransaction db tx) cid = selectChildPoints db cid := rfl

/-- Updating a task row leaves the ledger unchanged. -/
@[simp]
theorem ledgerSum_updateTaskDone (db : DB) (tid : Nat) (d : Bool) (c : Nat) :
    ledgerSum (updateTaskDone db tid d) c = ledgerSum db c := rfl

/-- Updating a child's points leaves the ledger unchanged. -/
@[simp]
theorem ledgerSum_updateChildPoints (db : DB) (cid : Nat) (v : Int) (c : Nat) :
    ledgerSum (updateChildPoints db cid v) c = ledgerSum db c := rfl

/-- Updating a redemption status leaves the children table unchanged. -/
@[simp]
theorem balanceOf_setRedemptionStatus (db : DB) (rid : Nat) (st : RedemptionStatus) (c : Nat) :
    balanceOf (setRedemptionStatus db rid st) c = balanceOf db c := rfl

/-- The points-update write rewrites exactly the rows whose id matches, as seen
through find?. -/
theorem find?_children_update (l : List Child) (cid : Nat) (v : Int) :
    ((l.map fun c => if c.id = cid then { c with points := v } else c).find?
        fun c => c.id = cid)
      = (l.find? fun c => c.id = cid).map fun c => { c with points := v } := by
  rw [List.find?_map]
  have hp : ((fun c : Child => decide (c.id = cid)) ∘
      fun c : Child => if c.id = cid then { c with points := v } else c)
      = fun c : Child => decide (c.id = cid) := by
    funext c
    by_cases h : c.id = cid <;> simp [h]
  rw [hp]
  cases hf : l.find? fun c => c.id = cid with
  | none => rfl
  | some c0 =>
    have := List.find?_some hf
    simp at this
    simp [this]

/-- Rows of other children are untouched by the points-update write. -/
theorem find?_children_update_ne (l : List Child) (cid c' : Nat) (v : Int)
    (h : c' ≠ cid) :
    ((l.map fun c => if c.id = cid then { c with points := v } else c).find?
        fun c => c.id = c')
      = l.find? fun c => c.id = c' := by
  rw [List.find?_map]
  have hp : ((fun c : Child => decide (c.id = c')) ∘
      fun c : Child => if c.id = cid then { c with points := v } else c)
      = fun c : Child => decide (c.id = c') := by
    funext c
    by_cases hc : c.id = cid <;> simp [hc]
  rw [hp]
  cases hf : l.find? fun c => c.id = c' with
  | none => rfl
  | some c0 =>
    have hmem := List.find?_some hf
    simp at hmem
    have : c0.id ≠ cid := by
      intro hbad
      exact h (hmem ▸ hbad ▸ rfl)
    simp [Option.map, this]

/-- Balance of the updated child after the points-update write. -/
theorem selectChildPoints_updateChildPoints_self (db : DB) (cid : Nat) (v p : Int)
    (hp : selectChildPoints db cid = some p) :
    selectChildPoints (updateChildPoints db cid v) cid = some v := by
  unfold selectChildPoints updateChildPoints
  unfold selectChildPoints at hp
  rcases Option.map_eq_some'.mp hp with ⟨c0, hc0, _⟩
  simp only []
  rw [find?_children_update, hc0]
  rfl

/-- Balance of every other child is untouched by the points-update write. -/
theorem selectChildPoints_updateChildPoints_ne (db : DB) (cid : Nat) (v : Int) (c' : Nat)
    (h : c' ≠ cid) :
    selectChildPoints (updateChildPoints db cid v) c' = selectChildPoints db c' := by
  unfold selectChildPoints updateChildPoints
  rw [find?_children_update_ne _ _ _ _ h]

/-- Appending a ledger row adds its delta to the sum of its child and leaves
other sums unchanged. -/
theorem ledgerSum_insertTransaction (db : DB) (tx : PointTransaction) (c : Nat) :
    ledgerSum (insertTransaction db tx) c
      = ledgerSum db c + (if tx.child_id = c then tx.points else 0) := by
  unfold ledgerSum insertTransaction
  by_cases h : tx.child_id = c <;>
    simp [List.filter_append, h]

/-- Ledger rows appended by the reward-requests approve: exactly one spend
row carrying the negated cost. -/
theorem pointTransactions_approveRewardRequest (db : DB) (r : RedemptionWithReward) :
    (approveRewardRequest db r).point_transactions
      = db.point_transactions ++
        [{ child_id := r.child_id
           reward_redemption_id := some r.id
           type := TxType.spend
           points := -r.required_points }] := rfl

/-- The reward-requests approve never touches the children table, hence never
the cached balance. -/
theorem children_approveRewardRequest (db : DB) (r : RedemptionWithReward) :
    (approveRewardRequest db r).children = db.children := rfl

/-- Each reward-requests approve call increments the number of spend entries
referencing the redemption by exactly one, unconditionally. -/
theorem spendCount_approveRewardRequest (db : DB) (r : RedemptionWithReward) :
    spendCount (approveRewardRequest db r) r.id = spendCount db r.id + 1 := by
  unfold spendCount approveRewardRequest insertTransaction setRedemptionStatus
  simp [List.filter_append]

/-- After a reward-requests approve, every redemption row with the approved id
has status approved. -/
theorem status_approveRewardRequest (db : DB) (r : RedemptionWithReward) :
    ((approveRewardRequest db r).reward_redemptions.all
      fun x => decide (x.id = r.id → x.status = RedemptionStatus.approved)) = true := by
  rw [List.all_eq_true]
  intro x hx
  have hx2 : x ∈ (db.reward_redemptions.map fun y =>
      if y.id = r.id then { y with status := RedemptionStatus.approved } else y) := hx
  rcases List.mem_map.mp hx2 with ⟨y, _, hfy⟩
  by_cases h : y.id = r.id
  · rw [if_pos h] at hfy
    subst hfy
    simp
  · rw [if_neg h] at hfy
    subst hfy
    simp [h]

/-- Writing the done flag of the same task twice keeps only the second write. -/
theorem tasks_update_update (l : List Task) (tid : Nat) (a b : Bool) :
    ((l.map fun t => if t.id = tid then { t with is_done := a } else t).map
        fun t => if t.id = tid then { t with is_done := b } else t)
      = l.map fun t => if t.id = tid then { t with is_done := b } else t := by
  rw [List.map_map]
  apply List.map_congr_left
  intro t _
  by_cases h : t.id = tid <;> simp [h]

/-- Master description of a fully successful toggleDone call on the selected
child: the task row is written first, then the clamped balance, then exactly
one ledger row carrying the unclamped delta. -/
theorem toggleDone_ok (db : DB) (task : Task) (cid : Nat) (p : Int)
    (hc : task.child_id = cid) (hp : selectChildPoints db cid = some p) :
    toggleDone db task (some cid) allOk
      = (insertTransaction
          (updateChildPoints (updateTaskDone db task.id (!task.is_done)) cid
            (max 0 (p + (if task.is_done then -task.point else task.point))))
          { child_id := cid
            reward_redemption_id := none
            type := if task.is_done then TxType.task_undo else TxType.task_done
            points := if task.is_done then -task.point else task.point },
         ToggleResult.success (!task.is_done)
           (if task.is_done then -task.point else task.point)) := by
  cases htd : task.is_done <;>
    simp [toggleDone, allOk, hc, hp, htd]

/-! Claim C1. -/

/-- C1 counterexample: child balance 5, done task worth 10.  The undo debit
would drive the balance to -5, yet toggleDone does not fail with
InsufficientBalance: it reports success, flips the done flag and clamps the
stored balance to 0 — the operation mutates state instead of failing. -/
theorem C1_counterexample :
    (toggleDone ⟨[⟨0, 5⟩], [⟨1, 0, 10, true⟩], [], [], []⟩ ⟨1, 0, 10, true⟩
        (some 0) allOk).2 = ToggleResult.success false (-10)
      ∧ balanceOf (toggleDone ⟨[⟨0, 5⟩], [⟨1, 0, 10, true⟩], [], [], []⟩
          ⟨1, 0, 10, true⟩ (some 0) allOk).1 0 = some 0
      ∧ (toggleDone ⟨[⟨0, 5⟩], [⟨1, 0, 10, true⟩], [], [], []⟩ ⟨1, 0, 10, true⟩
          (some 0) allOk).1.tasks = [⟨1, 0, 10, false⟩] := by
  decide

/-- C1 as amended: a task toggle to undone whose debit exceeds the stored
balance does not fail with InsufficientBalance — it succeeds, flips the done
flag and clamps the stored balance to zero; and the reward-requests approve
performs no balance check at all: it appends the spend entry and leaves the
children table (hence the cached balance) untouched, whatever the balance. -/
theorem C1_undo_clamps_and_approve_unchecked
    (db dbA : DB) (task : Task) (rA : RedemptionWithReward) (cid : Nat) (p : Int)
    (hc : task.child_id = cid) (hd : task.is_done = true)
    (hp : selectChildPoints db cid = some p) (hneg : p - task.point < 0) :
    (toggleDone db task (some cid) allOk).2 = ToggleResult.success false (-task.point)
      ∧ balanceOf (toggleDone db task (some cid) allOk).1 cid = some 0
      ∧ (approveRewardRequest dbA rA).point_transactions
          = dbA.point_transactions ++
            [{ child_id := rA.child_id
               reward_redemption_id := some rA.id
               type := TxType.spend
               points := -rA.required_points }]
      ∧ (approveRewardRequest dbA rA).children = dbA.children := by
  rw [toggleDone_ok db task cid p hc hp]
  have hmax : max 0 (p + -task.point) = 0 := max_eq_left (by omega)
  refine ⟨by simp [hd], ?_, pointTransactions_approveRewardRequest dbA rA,
    children_approveRewardRequest dbA rA⟩
  show selectChildPoints _ cid = some 0
  rw [selectChildPoints_insertTransaction,
    selectChildPoints_updateChildPoints_self _ _ _ p
      (by rw [selectChildPoints_updateTaskDone]; exact hp)]
  simp [hd, hmax]

/-- C1 witness: the amended statement evaluated at the counterexample state. -/
theorem C1_witness :
    (selectChildPoints ⟨[⟨0, 5⟩], [⟨1, 0, 10, true⟩], [], [], []⟩ 0 = some 5
      ∧ (5 : Int) - 10 < 0)
    ∧ balanceOf (toggleDone ⟨[⟨0, 5⟩], [⟨1, 0, 10, true⟩], [], [], []⟩
        ⟨1, 0, 10, true⟩ (some 0) allOk).1 0 = some 0 :=
  ⟨⟨by decide, by decide⟩,
   (C1_undo_clamps_and_approve_unchecked ⟨[⟨0, 5⟩], [⟨1, 0, 10, true⟩], [], [], []⟩
      ⟨[], [], [], [], []⟩ ⟨1, 0, 10, true⟩ ⟨5, 0, 4⟩ 0 5 rfl rfl
      (by decide) (by decide)).2.1⟩

/-! Claim C2. -/

/-- C2 counterexample: a state where the cached balance (10) matches the
ledger sum (one +10 entry), holding a pending redemption costing 4.  After the
reward-requests approve commits, the ledger sum is 6 but the cached balance is
still 10 — the claimed equality fails after a committed operation. -/
theorem C2_counterexample :
    balanceOf ⟨[⟨0, 10⟩], [], [⟨0, none, TxType.task_done, 10⟩],
        [⟨5, 0, 7, RedemptionStatus.pending, 0⟩], [⟨7, 4⟩]⟩ 0
      = some (ledgerSum ⟨[⟨0, 10⟩], [], [⟨0, none, TxType.task_done, 10⟩],
          [⟨5, 0, 7, RedemptionStatus.pending, 0⟩], [⟨7, 4⟩]⟩ 0)
      ∧ ¬ balanceOf (approveRewardRequest ⟨[⟨0, 10⟩], [], [⟨0, none, TxType.task_done, 10⟩],
            [⟨5, 0, 7, RedemptionStatus.pending, 0⟩], [⟨7, 4⟩]⟩ ⟨5, 0, 4⟩) 0
          = some (ledgerSum (approveRewardRequest ⟨[⟨0, 10⟩], [], [⟨0, none, TxType.task_done, 10⟩],
              [⟨5, 0, 7, RedemptionStatus.pending, 0⟩], [⟨7, 4⟩]⟩ ⟨5, 0, 4⟩) 0) := by
  decide

/-- C2 as amended: the equality between a child's cached balance and the sum
of its ledger deltas is preserved by a fully successful task toggle whose
clamp does not fire (previous points plus delta stays nonnegative); it is not
maintained by the reward-requests approve, which appends a spend entry without
updating the balance, nor by a clamping toggle, which stores the clamped
balance while recording the unclamped delta. -/
theorem C2_invariant_preserved_without_clamp
    (db : DB) (task : Task) (cid c : Nat) (p : Int)
    (hc : task.child_id = cid) (hp : selectChildPoints db cid = some p)
    (hnc : 0 ≤ p + (if task.is_done then -task.point else task.point))
    (hinv : balanceOf db c = some (ledgerSum db c)) :
    balanceOf (toggleDone db task (some cid) allOk).1 c
      = some (ledgerSum (toggleDone db task (some cid) allOk).1 c) := by
  rw [toggleDone_ok db task cid p hc hp]
  by_cases hcc : c = cid
  · subst hcc
    show selectChildPoints _ c = _
    rw [selectChildPoints_insertTransaction,
      selectChildPoints_updateChildPoints_self _ _ _ p
        (by rw [selectChildPoints_updateTaskDone]; exact hp)]
    rw [ledgerSum_insertTransaction, ledgerSum_updateChildPoints, ledgerSum_updateTaskDone]
    have hbp : p = ledgerSum db c := by
      have hb : balanceOf db c = some p := hp
      rw [hinv] at hb
      exact (Option.some.inj hb).symm
    rw [max_eq_right hnc]
    simp [hbp, add_comm]
  · show selectChildPoints _ c = _
    rw [selectChildPoints_insertTransaction,
      selectChildPoints_updateChildPoints_ne _ _ _ _ hcc,
      selectChildPoints_updateTaskDone]
    rw [ledgerSum_insertTransaction, ledgerSum_updateChildPoints, ledgerSum_updateTaskDone]
    rw [if_neg (fun h => hcc (Eq.symm h))]
    simpa using hinv

/-- C2 witness: the amended statement evaluated on a consistent state with a
non-clamping toggle (balance 10, task worth 4, toggled to done). -/
theorem C2_witness :
    (selectChildPoints ⟨[⟨0, 10⟩], [⟨1, 0, 4, false⟩],
          [⟨0, none, TxType.task_done, 10⟩], [], []⟩ 0 = some 10
      ∧ balanceOf ⟨[⟨0, 10⟩], [⟨1, 0, 4, false⟩],
            [⟨0, none, TxType.task_done, 10⟩], [], []⟩ 0
          = some (ledgerSum ⟨[⟨0, 10⟩], [⟨1, 0, 4, false⟩],
              [⟨0, none, TxType.task_done, 10⟩], [], []⟩ 0))
    ∧ balanceOf (toggleDone ⟨[⟨0, 10⟩], [⟨1, 0, 4, false⟩],
          [⟨0, none, TxType.task_done, 10⟩], [], []⟩ ⟨1, 0, 4, false⟩ (some 0) allOk).1 0
      = some (ledgerSum (toggleDone ⟨[⟨0, 10⟩], [⟨1, 0, 4, false⟩],
          [⟨0, none, TxType.task_done, 10⟩], [], []⟩ ⟨1, 0, 4, false⟩ (some 0) allOk).1 0) :=
  ⟨⟨by decide, by decide⟩,
   C2_invariant_preserved_without_clamp
     ⟨[⟨0, 10⟩], [⟨1, 0, 4, false⟩], [⟨0, none, TxType.task_done, 10⟩], [], []⟩
     ⟨1, 0, 4, false⟩ 0 0 10 rfl (by decide) (by decide) (by decide)⟩

/-! Claim C3. -/

/-- C3 counterexample: approving the same pending redemption twice through the
reward-requests page produces two spend ledger entries for its id (status ends
approved), refuting at-most-one spend entry per redemption id. -/
theorem C3_counterexample :
    spendCount (approveRewardRequest (approveRewardRequest
        ⟨[⟨0, 10⟩], [], [], [⟨5, 0, 7, RedemptionStatus.pending, 0⟩], [⟨7, 4⟩]⟩
        ⟨5, 0, 4⟩) ⟨5, 0, 4⟩) 5 = 2
      ∧ ((approveRewardRequest (approveRewardRequest
            ⟨[⟨0, 10⟩], [], [], [⟨5, 0, 7, RedemptionStatus.pending, 0⟩], [⟨7, 4⟩]⟩
            ⟨5, 0, 4⟩) ⟨5, 0, 4⟩).reward_redemptions.all
          fun x => decide (x.id = 5 → x.status = RedemptionStatus.approved)) = true := by
  decide

/-- C3 as amended: every reward-requests approve call unconditionally appends
exactly one spend entry referencing the redemption and leaves every row with
that id approved; there is no status guard and no atomic pairing, so the
at-most-once property holds only if approve is called at most once per
redemption — repeated calls append duplicate spend entries. -/
theorem C3_spend_entry_per_call (db : DB) (r : RedemptionWithReward) :
    spendCount (approveRewardRequest db r) r.id = spendCount db r.id + 1
      ∧ ((approveRewardRequest db r).reward_redemptions.all
          fun x => decide (x.id = r.id → x.status = RedemptionStatus.approved)) = true :=
  ⟨spendCount_approveRewardRequest db r, status_approveRewardRequest db r⟩

/-! Claim C4. -/

/-- C4 counterexample: calling the reward-requests approve on an
already-approved redemption does not fail with InvalidState — it commits and
appends a new spend ledger entry. -/
theorem C4_counterexample :
    approveRewardRequest
        ⟨[⟨0, 10⟩], [], [], [⟨5, 0, 7, RedemptionStatus.approved, 0⟩], [⟨7, 4⟩]⟩
        ⟨5, 0, 4⟩
      = ⟨[⟨0, 10⟩], [], [⟨0, some 5, TxType.spend, -4⟩],
         [⟨5, 0, 7, RedemptionStatus.approved, 0⟩], [⟨7, 4⟩]⟩ := by
  decide

/-- C4 as amended: the approve and reject RPCs used by the redemptions page
(modelled from the spec, the stored procedures being outside the repository)
fail with InvalidState and change nothing when the redemption is not pending;
the client-side reward-requests approve performs no status check and appends a
new spend entry on every call, non-pending targets included. -/
theorem C4_rpc_guards_client_approve_unguarded
    (db1 db2 dbA : DB) (id1 id2 : Nat) (r1 r2 : Redemption) (rA : RedemptionWithReward)
    (h1 : db1.reward_redemptions.find? (fun r => r.id = id1) = some r1)
    (hs1 : r1.status ≠ RedemptionStatus.pending)
    (h2 : db2.reward_redemptions.find? (fun r => r.id = id2) = some r2)
    (hs2 : r2.status ≠ RedemptionStatus.pending) :
    approve_reward_redemption db1 id1 = (db1, RpcResult.invalidState)
      ∧ reject_reward_redemption db2 id2 = (db2, RpcResult.invalidState)
      ∧ spendCount (approveRewardRequest dbA rA) rA.id = spendCount dbA rA.id + 1 := by
  refine ⟨?_, ?_, spendCount_approveRewardRequest dbA rA⟩
  · simp [approve_reward_redemption, h1, hs1]
  · simp [reject_reward_redemption, h2, hs2]

/-- C4 witness: the amended statement evaluated on a state holding one
already-approved redemption. -/
theorem C4_witness :
    ((⟨[⟨0, 10⟩], [], [], [⟨5, 0, 7, RedemptionStatus.approved, 0⟩], [⟨7, 4⟩]⟩ : DB).reward_redemptions.find?
        (fun r => r.id = 5) = some ⟨5, 0, 7, RedemptionStatus.approved, 0⟩
      ∧ (⟨5, 0, 7, RedemptionStatus.approved, 0⟩ : Redemption).status ≠ RedemptionStatus.pending)
    ∧ approve_reward_redemption
        ⟨[⟨0, 10⟩], [], [], [⟨5, 0, 7, RedemptionStatus.approved, 0⟩], [⟨7, 4⟩]⟩ 5
      = (⟨[⟨0, 10⟩], [], [], [⟨5, 0, 7, RedemptionStatus.approved, 0⟩], [⟨7, 4⟩]⟩,
         RpcResult.invalidState)
    ∧ reject_reward_redemption
        ⟨[⟨0, 10⟩], [], [], [⟨5, 0, 7, RedemptionStatus.approved, 0⟩], [⟨7, 4⟩]⟩ 5
      = (⟨[⟨0, 10⟩], [], [], [⟨5, 0, 7, RedemptionStatus.approved, 0⟩], [⟨7, 4⟩]⟩,
         RpcResult.invalidState) :=
  ⟨⟨by decide, by decide⟩,
   (C4_rpc_guards_client_approve_unguarded
      ⟨[⟨0, 10⟩], [], [], [⟨5, 0, 7, RedemptionStatus.approved, 0⟩], [⟨7, 4⟩]⟩
      ⟨[⟨0, 10⟩], [], [], [⟨5, 0, 7, RedemptionStatus.approved, 0⟩], [⟨7, 4⟩]⟩
      ⟨[], [], [], [], []⟩ 5 5
      ⟨5, 0, 7, RedemptionStatus.approved, 0⟩ ⟨5, 0, 7, RedemptionStatus.approved, 0⟩
      ⟨5, 0, 4⟩ (by decide) (by decide) (by decide) (by decide)).1,
   (C4_rpc_guards_client_approve_unguarded
      ⟨[⟨0, 10⟩], [], [], [⟨5, 0, 7, RedemptionStatus.approved, 0⟩], [⟨7, 4⟩]⟩
      ⟨[⟨0, 10⟩], [], [], [⟨5, 0, 7, RedemptionStatus.approved, 0⟩], [⟨7, 4⟩]⟩
      ⟨[], [], [], [], []⟩ 5 5
      ⟨5, 0, 7, RedemptionStatus.approved, 0⟩ ⟨5, 0, 7, RedemptionStatus.approved, 0⟩
      ⟨5, 0, 4⟩ (by decide) (by decide) (by decide) (by decide)).2.1⟩

/-! Claim C5. -/

/-- C5 counterexample: the task-flag RPC succeeds but the subsequent points
read fails; toggleDone reports failure, yet the done flag has already been
flipped (true to false) with no ledger change — the flag did change although
the ledger update failed. -/
theorem C5_counterexample :
    toggleDone ⟨[⟨0, 5⟩], [⟨1, 0, 10, true⟩], [], [], []⟩ ⟨1, 0, 10, true⟩ (some 0)
        ⟨true, false, true, true⟩
      = (⟨[⟨0, 5⟩], [⟨1, 0, 10, false⟩], [], [], []⟩, ToggleResult.failed) := by
  decide

/-- C5 as amended: the done-flag update is issued first as its own call; when
that call itself fails nothing changes, but when any later ledger step fails
the flag update (and, for a failing history insert, the points write too)
remains committed — the task-state update and the ledger update are applied
independently, not as one atomic unit. -/
theorem C5_toggle_not_atomic
    (db : DB) (task : Task) (cid : Nat) (p : Int) (o : StepOutcomes)
    (hc : task.child_id = cid) (hp : selectChildPoints db cid = some p) :
    toggleDone db task (some cid) ⟨false, o.pointReadOk, o.pointWriteOk, o.txInsertOk⟩
        = (db, ToggleResult.failed)
      ∧ toggleDone db task (some cid) ⟨true, false, o.pointWriteOk, o.txInsertOk⟩
        = (updateTaskDone db task.id (!task.is_done), ToggleResult.failed)
      ∧ toggleDone db task (some cid) ⟨true, true, true, false⟩
        = (updateChildPoints (updateTaskDone db task.id (!task.is_done)) cid
            (max 0 (p + (if task.is_done then -task.point else task.point))),
           ToggleResult.failed) := by
  refine ⟨?_, ?_, ?_⟩
  · simp [toggleDone, hc]
  · simp [toggleDone, hc]
  · cases htd : task.is_done <;> simp [toggleDone, hc, hp, htd]

/-- C5 witness: the amended statement evaluated at the counterexample state
with the points read failing after the flag update succeeded. -/
theorem C5_witness :
    (selectChildPoints ⟨[⟨0, 5⟩], [⟨1, 0, 10, true⟩], [], [], []⟩ 0 = some 5)
    ∧ toggleDone ⟨[⟨0, 5⟩], [⟨1, 0, 10, true⟩], [], [], []⟩ ⟨1, 0, 10, true⟩ (some 0)
        ⟨true, false, true, true⟩
      = (updateTaskDone ⟨[⟨0, 5⟩], [⟨1, 0, 10, true⟩], [], [], []⟩ 1 false,
         ToggleResult.failed) :=
  ⟨by decide,
   (C5_toggle_not_atomic ⟨[⟨0, 5⟩], [⟨1, 0, 10, true⟩], [], [], []⟩ ⟨1, 0, 10, true⟩
      0 5 ⟨true, true, true, true⟩ rfl (by decide)).2.1⟩

/-! Claim C6. -/

/-- C6: a fully successful toggle appends exactly one ledger entry, with
delta plus point and kind task_done when the task transitions to done, and
minus point with kind task_undo when it transitions to not done. -/
theorem C6_toggle_single_entry (db : DB) (task : Task) (cid : Nat) (p : Int)
    (hc : task.child_id = cid) (hp : selectChildPoints db cid = some p) :
    (toggleDone db task (some cid) allOk).1.point_transactions
      = db.point_transactions ++
        [{ child_id := cid
           reward_redemption_id := none
           type := if task.is_done then TxType.task_undo else TxType.task_done
           points := if task.is_done then -task.point else task.point }]
      ∧ (toggleDone db task (some cid) allOk).2
        = ToggleResult.success (!task.is_done)
            (if task.is_done then -task.point else task.point) := by
  rw [toggleDone_ok db task cid p hc hp]
  exact ⟨rfl, rfl⟩

/-- C6 witness: toggling a not-done task worth 10 on a child with balance 0
appends one +10 task_done entry. -/
theorem C6_witness :
    (selectChildPoints ⟨[⟨0, 0⟩], [⟨1, 0, 10, false⟩], [], [], []⟩ 0 = some 0)
    ∧ (toggleDone ⟨[⟨0, 0⟩], [⟨1, 0, 10, false⟩], [], [], []⟩ ⟨1, 0, 10, false⟩
        (some 0) allOk).1.point_transactions
      = [{ child_id := 0, reward_redemption_id := none,
           type := TxType.task_done, points := 10 }] :=
  ⟨by decide,
   (C6_toggle_single_entry ⟨[⟨0, 0⟩], [⟨1, 0, 10, false⟩], [], [], []⟩
      ⟨1, 0, 10, false⟩ 0 0 rfl (by decide)).1⟩

/-! Claim C7. -/

/-- C7 counterexample: child balance 5, done task worth 10.  Undo clamps the
balance to 0; the second toggle then adds 10, ending at balance 10 instead of
the original 5 — the double toggle does not restore the balance. -/
theorem C7_counterexample :
    balanceOf ⟨[⟨0, 5⟩], [⟨1, 0, 10, true⟩], [], [], []⟩ 0 = some 5
      ∧ balanceOf (toggleDone (toggleDone ⟨[⟨0, 5⟩], [⟨1, 0, 10, true⟩], [], [], []⟩
            ⟨1, 0, 10, true⟩ (some 0) allOk).1 ⟨1, 0, 10, false⟩ (some 0) allOk).1 0
          = some 10
      ∧ ¬ balanceOf (toggleDone (toggleDone ⟨[⟨0, 5⟩], [⟨1, 0, 10, true⟩], [], [], []⟩
            ⟨1, 0, 10, true⟩ (some 0) allOk).1 ⟨1, 0, 10, false⟩ (some 0) allOk).1 0
          = some 5 := by
  decide

/-- C7 as amended: toggling a task twice (the second call seeing the flipped
done flag) restores the done flag and appends exactly two ledger entries with
opposite deltas; the balance returns to its original value provided the first
toggle leaves the balance nonnegative (no clamp) — when the first toggle is an
undo whose debit exceeds the balance, the clamp fires and the final balance
differs from the original. -/
theorem C7_double_toggle (db : DB) (task : Task) (cid : Nat) (p : Int)
    (hc : task.child_id = cid) (hp : selectChildPoints db cid = some p)
    (h0 : 0 ≤ p)
    (hnc : 0 ≤ p + (if task.is_done then -task.point else task.point)) :
    balanceOf (toggleDone (toggleDone db task (some cid) allOk).1
        { task with is_done := !task.is_done } (some cid) allOk).1 cid = some p
      ∧ (toggleDone (toggleDone db task (some cid) allOk).1
          { task with is_done := !task.is_done } (some cid) allOk).1.point_transactions
        = db.point_transactions ++
          [{ child_id := cid, reward_redemption_id := none,
             type := if task.is_done then TxType.task_undo else TxType.task_done,
             points := if task.is_done then -task.point else task.point },
           { child_id := cid, reward_redemption_id := none,
             type := if task.is_done then TxType.task_done else TxType.task_undo,
             points := if task.is_done then task.point else -task.point }]
      ∧ (toggleDone (toggleDone db task (some cid) allOk).1
          { task with is_done := !task.is_done } (some cid) allOk).1.tasks
        = (updateTaskDone db task.id task.is_done).tasks
      ∧ (toggleDone (toggleDone db task (some cid) allOk).1
          { task with is_done := !task.is_done } (some cid) allOk).2
        = ToggleResult.success task.is_done
            (if task.is_done then task.point else -task.point) := by
  have hc2 : ({ task with is_done := !task.is_done } : Task).child_id = cid := hc
  rw [toggleDone_ok db task cid p hc hp]
  have hp1 : selectChildPoints
      (insertTransaction (updateChildPoints (updateTaskDone db task.id (!task.is_done)) cid
        (max 0 (p + (if task.is_done then -task.point else task.point))))
        { child_id := cid
          reward_redemption_id := none
          type := if task.is_done then TxType.task_undo else TxType.task_done
          points := if task.is_done then -task.point else task.point }) cid
      = some (p + (if task.is_done then -task.point else task.point)) := by
    rw [selectChildPoints_insertTransaction,
      selectChildPoints_updateChildPoints_self _ _ _ p
        (by rw [selectChildPoints_updateTaskDone]; exact hp),
      max_eq_right hnc]
  rw [toggleDone_ok _ _ cid _ hc2 hp1]
  have hp2 : selectChildPoints
      (updateTaskDone (insertTransaction (updateChildPoints
          (updateTaskDone db task.id (!task.is_done)) cid
          (max 0 (p + (if task.is_done then -task.point else task.point))))
        { child_id := cid
          reward_redemption_id := none
          type := if task.is_done then TxType.task_undo else TxType.task_done
          points := if task.is_done then -task.point else task.point })
        ({ task with is_done := !task.is_done } : Task).id
        (!({ task with is_done := !task.is_done } : Task).is_done)) cid
      = some (p + (if task.is_done then -task.point else task.point)) := by
    rw [selectChildPoints_updateTaskDone]
    exact hp1
  refine ⟨?_, ?_, ?_, ?_⟩
  · show selectChildPoints _ cid = some p
    rw [selectChildPoints_insertTransaction,
      selectChildPoints_updateChildPoints_self _ _ _ _ hp2]
    cases htd : task.is_done <;> simp [htd, max_eq_right h0]
  · show (_ ++ _ : List PointTransaction) = _
    cases htd : task.is_done <;>
      simp [insertTransaction, updateChildPoints, updateTaskDone, htd]
  · show (List.map _ _) = _
    cases htd : task.is_done <;>
      simp only [insertTransaction, updateChildPoints, updateTaskDone, htd,
        Bool.not_true, Bool.not_false] <;>
      exact tasks_update_update db.tasks task.id _ _
  · cases htd : task.is_done <;> simp [htd]

/-- C7 witness: balance 15, done task worth 10 — no clamp; the double toggle
restores balance 15, the done flag, and appends a -10 then +10 entry pair. -/
theorem C7_witness :
    (selectChildPoints ⟨[⟨0, 15⟩], [⟨1, 0, 10, true⟩], [], [], []⟩ 0 = some 15
      ∧ (0 : Int) ≤ 15 ∧ (0 : Int) ≤ 15 + -10)
    ∧ balanceOf (toggleDone (toggleDone ⟨[⟨0, 15⟩], [⟨1, 0, 10, true⟩], [], [], []⟩
        ⟨1, 0, 10, true⟩ (some 0) allOk).1 ⟨1, 0, 10, false⟩ (some 0) allOk).1 0
      = some 15 :=
  ⟨⟨by decide, by decide, by decide⟩,
   (C7_double_toggle ⟨[⟨0, 15⟩], [⟨1, 0, 10, true⟩], [], [], []⟩ ⟨1, 0, 10, true⟩
      0 15 rfl (by decide) (by decide) (by decide)).1⟩

/-! Claim C8. -/

instance instIsTotalRequestedAt :
    IsTotal Redemption fun a b => a.requested_at ≤ b.requested_at :=
  ⟨fun a b => Nat.le_total a.requested_at b.requested_at⟩

instance instIsTransRequestedAt :
    IsTrans Redemption fun a b => a.requested_at ≤ b.requested_at :=
  ⟨fun _ _ _ hab hbc => Nat.le_trans hab hbc⟩

/-- C8: for every state of the redemption table, the pending listing is sorted
by requested_at ascending, is a permutation of exactly the pending rows, and
every returned row has status pending. -/
theorem C8_pending_sorted (db : DB) :
    List.Sorted (fun a b : Redemption => a.requested_at ≤ b.requested_at) (fetchRows db)
      ∧ (fetchRows db).Perm
          (db.reward_redemptions.filter fun r => r.status = RedemptionStatus.pending)
      ∧ ((fetchRows db).all fun r => decide (r.status = RedemptionStatus.pending)) = true := by
  refine ⟨List.sorted_insertionSort _ _, List.perm_insertionSort _ _, ?_⟩
  rw [List.all_eq_true]
  intro r hr
  have hmem : r ∈ db.reward_redemptions.filter fun x => x.status = RedemptionStatus.pending :=
    ((List.perm_insertionSort _ _).mem_iff).mp hr
  exact (List.mem_filter.mp hmem).2

/-! Claim C9. -/

/-- C9: a fully successful toggle stores exactly max(0, previous points +
delta) as the child's new balance, reporting success — a debit beyond the
balance clamps to zero rather than failing, and the stored value is never
negative. -/
theorem C9_balance_clamped (db : DB) (task : Task) (cid : Nat) (p : Int)
    (hc : task.child_id = cid) (hp : selectChildPoints db cid = some p) :
    (toggleDone db task (some cid) allOk).2
        = ToggleResult.success (!task.is_done)
            (if task.is_done then -task.point else task.point)
      ∧ balanceOf (toggleDone db task (some cid) allOk).1 cid
        = some (max 0 (p + (if task.is_done then -task.point else task.point)))
      ∧ (0 : Int) ≤ max 0 (p + (if task.is_done then -task.point else task.point)) := by
  rw [toggleDone_ok db task cid p hc hp]
  refine ⟨rfl, ?_, le_max_left 0 _⟩
  show selectChildPoints _ cid = _
  rw [selectChildPoints_insertTransaction,
    selectChildPoints_updateChildPoints_self _ _ _ p
      (by rw [selectChildPoints_updateTaskDone]; exact hp)]

/-- C9 witness: balance 5, undo of a 10-point task — the toggle succeeds and
the stored balance is the clamped value max(0, 5 - 10) = 0. -/
theorem C9_witness :
    (selectChildPoints ⟨[⟨0, 5⟩], [⟨1, 0, 10, true⟩], [], [], []⟩ 0 = some 5)
    ∧ balanceOf (toggleDone ⟨[⟨0, 5⟩], [⟨1, 0, 10, true⟩], [], [], []⟩
        ⟨1, 0, 10, true⟩ (some 0) allOk).1 0 = some (max 0 (5 + -10)) :=
  ⟨by decide,
   (C9_balance_clamped ⟨[⟨0, 5⟩], [⟨1, 0, 10, true⟩], [], [], []⟩ ⟨1, 0, 10, true⟩
      0 5 rfl (by decide)).2.1⟩

/-! Claim C10. -/

/-- C10: a redemption request inserts one pending row exactly when the cached
points are at least the required cost; below the cost the request is refused
with no insert. -/
theorem C10_exchange_requires_points (db : DB) (pm : List (Nat × Int)) (cid : Nat)
    (reward : Reward) (newId rAt : Nat) :
    (lookupPoints pm cid < reward.required_points →
        exchangeReward db pm (some cid) reward newId rAt = (db, false))
      ∧ (reward.required_points ≤ lookupPoints pm cid →
        exchangeReward db pm (some cid) reward newId rAt
          = ({ db with reward_redemptions := db.reward_redemptions ++
                [{ id := newId, child_id := cid, reward_id := reward.id,
                   status := RedemptionStatus.pending, requested_at := rAt }] },
             true)) := by
  constructor
  · intro h
    simp [exchangeReward, h]
  · intro h
    simp [exchangeReward, not_lt.mpr h]

/-- C10 witness: cached points 3 refuse a 4-point reward with no insert;
cached points 5 insert the pending row. -/
theorem C10_witness :
    (lookupPoints [(0, 3)] 0 < (4 : Int)
      ∧ exchangeReward ⟨[], [], [], [], []⟩ [(0, 3)] (some 0) ⟨7, 4⟩ 9 100
          = (⟨[], [], [], [], []⟩, false))
    ∧ ((4 : Int) ≤ lookupPoints [(0, 5)] 0
      ∧ exchangeReward ⟨[], [], [], [], []⟩ [(0, 5)] (some 0) ⟨7, 4⟩ 9 100
          = (⟨[], [], [], [⟨9, 0, 7, RedemptionStatus.pending, 100⟩], []⟩, true)) :=
  ⟨⟨by decide,
    (C10_exchange_requires_points ⟨[], [], [], [], []⟩ [(0, 3)] 0 ⟨7, 4⟩ 9 100).1
      (by decide)⟩,
   ⟨by decide,
    (C10_exchange_requires_points ⟨[], [], [], [], []⟩ [(0, 5)] 0 ⟨7, 4⟩ 9 100).2
      (by decide)⟩⟩

end Oyako
